import Mathlib

/-!
Verification development for the `bindgen` crate entry points (`src/lib.rs`).

The file shallowly embeds `src/lib.rs`: `BindgenOptions`, `LinkType`,
`Logger`/`DummyLogger`, `Bindings` with `generate`, `into_ast`, `to_string`
and `write`, plus the helpers `parse_headers`, `str_to_ikind` and
`builtin_names`.

The crate delegates to collaborators that are not part of `src/lib.rs`:
the `parser` and `gen` modules and the `syntax` crate pretty printer.
Following the specification, which treats them as external services
("a parser service returning structured records", "a renderer consuming the
canonical declaration list"), they are modelled as an explicit environment
`Env` of pure functions over which every theorem quantifies.  A concrete
spec-modelled registry (`parseModel`) instantiates the environment where a
claim is about the registry policy itself.
-/

namespace Bindgen

/-- The `IKind` type from the `types` module: signedness × platform-width class.
The ten constructor names are exactly the ones `src/lib.rs` references in
`str_to_ikind` (lines 141-150). -/
inductive IKind where
  | IUChar | ISChar | IUShort | IShort | IUInt | IInt
  | IULong | ILong | IULongLong | ILongLong
  deriving DecidableEq, Repr

/-- The `LinkType` enum (src/lib.rs lines 60-65). -/
inductive LinkType where
  | Default | Static | Framework
  deriving DecidableEq, Repr

/-- The `BindgenOptions` struct (src/lib.rs lines 36-44). -/
structure BindgenOptions where
  match_pat : List String
  builtins : Bool
  links : List (String × LinkType)
  emit_ast : Bool
  fail_on_unknown_type : Bool
  override_enum_ty : String
  clang_args : List String
  deriving Repr

/-- The `impl Default for BindgenOptions` value (src/lib.rs lines 46-58). -/
def BindgenOptions.default : BindgenOptions where
  match_pat := []
  builtins := false
  links := []
  emit_ast := false
  fail_on_unknown_type := false
  override_enum_ty := ""
  clang_args := []

/-- The `Logger` trait (src/lib.rs lines 67-70).  The Rust methods return
unit and act only by side effect; the model makes the effect observable as
the list of output lines the logger produces for a message. -/
structure Logger where
  error : String → List String
  warn : String → List String

/-- The `DummyLogger` value (src/lib.rs lines 131-136): both methods do nothing,
i.e. produce no output. -/
def DummyLogger : Logger where
  error := fun _ => []
  warn := fun _ => []

/-- A diagnostic emitted by the parser service, tagged by the `Logger`
method it is routed to. -/
inductive LogMsg where
  | error (msg : String)
  | warn (msg : String)
  deriving DecidableEq, Repr

/-- Route one parser diagnostic to the corresponding `Logger` method. -/
def runLogger (l : Logger) : LogMsg → List String
  | .error m => l.error m
  | .warn m => l.warn m

/-- Spans come from the external `syntax` crate; only their identity
matters to `src/lib.rs`. -/
abbrev Span := Nat

/-- The `DUMMY_SP` constant from `syntax::codemap`. -/
def DUMMY_SP : Span := 0

/-- Modelled from the spec: the canonical `Type` of the data model (§3),
restricted to the constructors the claims exercise; the `types` module is
not under `src/`.  `Unknown` keeps the original spelling. -/
inductive CType where
  | Void
  | Int (k : IKind)
  | Unknown (spelling : String)
  deriving DecidableEq, Repr

/-- Modelled from the spec: a `Global` node (§3), restricted to the `Var`
form (name + type); the `types` module is not under `src/`. -/
inductive Global where
  | GVar (name : String) (ty : CType)
  deriving DecidableEq, Repr

/-- A target-language declaration (`syntax::ast::Item`); its internal
structure is external to the crate, only its identity matters here. -/
structure Item where
  tag : Nat
  deriving DecidableEq, Repr

/-- The `syntax::ast::Mod` record: the span plus the ordered declaration list. -/
structure Mod where
  inner : Span
  items : List Item
  deriving DecidableEq, Repr

/-- The `parser::ClangParserOptions` record as constructed in `parse_headers`
(src/lib.rs lines 155-163). -/
structure ClangParserOptions where
  builtin_names : Finset String
  builtins : Bool
  match_pat : List String
  emit_ast : Bool
  fail_on_unknown_type : Bool
  override_enum_ty : Option IKind
  clang_args : List String

/-- The external collaborators of `src/lib.rs`, modelled from the spec as
pure functions (§5: "generation is a one-shot pure function from
(headers, configuration) to a result or a failure"):
  * `parse` — `parser::parse`: the Parser Adapter plus Type Registry; it
    returns the registered globals or a failure, together with the
    diagnostics it reports through the logger (§6: `parse(clang_args,
    builtin_allowance, match filters) -> Result<sequence of Global,
    ParseFailure>`);
  * `gen_mod` — `gen::gen_mod`: the Binding Emitter (§4.4: `emit(ordered
    Globals, link metadata) -> declaration sequence`);
  * `print_mod_at` — the pretty printer printing a module with a printer of
    the given line-wrap width (`pp::mk_printer(out, width)` followed by
    `print_mod` and `print_remaining_comments`);
  * `default_columns` — the width of the printer that
    `pprust::rust_printer` builds when no width is specified. -/
structure Env where
  parse : ClangParserOptions → Except Unit (List Global) × List LogMsg
  gen_mod : List (String × LinkType) → List Global → Span → List Item
  print_mod_at : Mod → Nat → String
  default_columns : Nat

/-- The helper `str_to_ikind` (src/lib.rs lines 139-153), the nested helper of
`parse_headers`; the Rust `match` on string literals is an equality
cascade. -/
def str_to_ikind (s : String) : Option IKind :=
  if s = "uchar" then some .IUChar
  else if s = "schar" then some .ISChar
  else if s = "ushort" then some .IUShort
  else if s = "sshort" then some .IShort
  else if s = "uint" then some .IUInt
  else if s = "sint" then some .IInt
  else if s = "ulong" then some .IULong
  else if s = "slong" then some .ILong
  else if s = "ulonglong" then some .IULongLong
  else if s = "slonglong" then some .ILongLong
  else none

/-- The `builtin_names` set (src/lib.rs lines 168-182): inserts the three key
strings into an initially empty set. -/
def builtin_names : Finset String :=
  (["__va_list_tag", "__va_list", "__builtin_va_list"]).foldl
    (fun names s => insert s names) (∅ : Finset String)

/-- The `ClangParserOptions` record that `parse_headers` builds from the
`BindgenOptions` (src/lib.rs lines 155-163), named so that theorems can
speak about the options handed to the parser. -/
def clangOptionsOf (options : BindgenOptions) : ClangParserOptions where
  builtin_names := builtin_names
  builtins := options.builtins
  match_pat := options.match_pat
  emit_ast := options.emit_ast
  fail_on_unknown_type := options.fail_on_unknown_type
  override_enum_ty := str_to_ikind options.override_enum_ty
  clang_args := options.clang_args

/-- The `parse_headers` function (src/lib.rs lines 138-166): build the parser options
and call `parser::parse`.  The first component is the returned `Result`;
the second is the output the supplied logger produces for the parser's
diagnostics. -/
def parse_headers (env : Env) (options : BindgenOptions) (logger : Logger) :
    Except Unit (List Global) × List String :=
  let r := env.parse (clangOptionsOf options)
  (r.1, (r.2.map (runLogger logger)).flatten)

/-- The `Bindings` struct (src/lib.rs lines 72-75). -/
structure Bindings where
  module : Mod
  deriving DecidableEq, Repr

/-- The `Bindings::generate` entry point (src/lib.rs lines 79-101): substitute
`DummyLogger` / `DUMMY_SP` for missing arguments, parse the headers
(`try!` propagates the failure), then build the module from the parsed
globals.  The second component is the logger output produced during the
run. -/
def Bindings.generate (env : Env) (options : BindgenOptions)
    (logger : Option Logger) (span : Option Span) :
    Except Unit Bindings × List String :=
  let logger := match logger with
    | some l => l
    | none => DummyLogger
  let span := match span with
    | some s => s
    | none => DUMMY_SP
  let r := parse_headers env options logger
  match r.1 with
  | .error e => (.error e, r.2)
  | .ok globals =>
      (.ok { module := { inner := span,
                         items := env.gen_mod options.links globals span } },
       r.2)

/-- The `Bindings::into_ast` method (src/lib.rs lines 103-105). -/
def Bindings.into_ast (self : Bindings) : List Item :=
  self.module.items

/-- The `Bindings::to_string` method (src/lib.rs lines 107-114): replace the
printer with one of line-wrap width 80 over a fresh buffer, then print the
module. -/
def Bindings.to_string (env : Env) (self : Bindings) : String :=
  env.print_mod_at self.module 80

/-- The `Bindings::write` method (src/lib.rs lines 116-127): emit the banner, then
print the module with `pprust::rust_printer`, whose printer has the pretty
printer's default width.  The sink's contents are modelled as the returned
string. -/
def Bindings.write (env : Env) (self : Bindings) : String :=
  "/* automatically generated by rust-bindgen */\n\n"
    ++ env.print_mod_at self.module env.default_columns

/-- Modelled from the spec: a raw type handle as delivered by the Parser
Adapter, before the Type Registry classifies it (§4.1); the `parser`
module is not under `src/`.  `unclassifiable` is a raw type the registry
cannot classify. -/
inductive RawType where
  | void
  | int (k : IKind)
  | unclassifiable (spelling : String)
  deriving DecidableEq, Repr

/-- Modelled from the spec: a raw top-level declaration from the Parser
Adapter (name plus raw type). -/
structure RawDecl where
  name : String
  ty : RawType
  deriving DecidableEq, Repr

/-- Modelled from the spec: the Type Registry's classification of one raw
type (§4.1, §7) — any raw type the registry cannot classify becomes
`Unknown(spelling)`; in strict mode this is a hard failure, in lenient
mode it is kept as a placeholder and a warning is surfaced. -/
def resolveType (opts : ClangParserOptions) :
    RawType → Except Unit (CType × List LogMsg)
  | .void => .ok (.Void, [])
  | .int k => .ok (.Int k, [])
  | .unclassifiable sp =>
      if opts.fail_on_unknown_type then .error ()
      else .ok (.Unknown sp, [.warn ("unknown type: " ++ sp)])

/-- Modelled from the spec: registration of a stream of raw declarations,
in order; a fatal classification failure aborts the whole run (§7: "abort
the entire run with no partial `Bindings` exposed"). -/
def registerDecls (opts : ClangParserOptions) :
    List RawDecl → Except Unit (List Global × List LogMsg)
  | [] => .ok ([], [])
  | d :: ds =>
      match resolveType opts d.ty with
      | .error e => .error e
      | .ok (t, w) =>
          match registerDecls opts ds with
          | .error e => .error e
          | .ok (gs, ws) => .ok (.GVar d.name t :: gs, w ++ ws)

/-- Modelled from the spec: `parser::parse` over a fixed raw declaration
stream — the result plus the diagnostics reported through the logger;
a parse failure is logged via `Logger.error` (§7). -/
def parseModel (input : List RawDecl) (opts : ClangParserOptions) :
    Except Unit (List Global) × List LogMsg :=
  match registerDecls opts input with
  | .ok (gs, ws) => (.ok gs, ws)
  | .error e => (.error e, [.error "unrecoverable parse failure"])

/-- An environment whose parser is the spec-modelled registry over a fixed
raw input stream; the emitter and printer are irrelevant to the registry
claims and are instantiated trivially. -/
def envModel (input : List RawDecl) : Env where
  parse := parseModel input
  gen_mod := fun _ _ _ => []
  print_mod_at := fun _ _ => ""
  default_columns := 78

/-- A logger that records every diagnostic it receives as one tagged
output line; used to observe warnings surfaced through the logger. -/
def recordLogger : Logger where
  error := fun m => ["error: " ++ m]
  warn := fun m => ["warn: " ++ m]

/-- An environment whose parser fails unconditionally, as the external
parser does on unrecoverable diagnostics. -/
def envFail : Env where
  parse := fun _ => (.error (), [.error "unrecoverable parse failure"])
  gen_mod := fun _ _ _ => []
  print_mod_at := fun _ _ => ""
  default_columns := 78

/-- C8: the default `BindgenOptions` select all declarations
(`match_pat = []`), suppress builtins, declare no links, use the lenient
unknown-type policy, and carry the empty enum override (which
`str_to_ikind` maps to no override). -/
theorem default_options_lenient_select_all :
    BindgenOptions.default.match_pat = []
    ∧ BindgenOptions.default.builtins = false
    ∧ BindgenOptions.default.links = []
    ∧ BindgenOptions.default.fail_on_unknown_type = false
    ∧ BindgenOptions.default.override_enum_ty = ""
    ∧ str_to_ikind BindgenOptions.default.override_enum_ty = none :=
  ⟨rfl, rfl, rfl, rfl, rfl, by decide⟩

/-- C10: for every options value, the builtin-name set handed to the
parser is `builtin_names`, and a string belongs to it exactly when it is
one of the three names `__va_list_tag`, `__va_list`,
`__builtin_va_list`. -/
theorem builtin_names_exactly_three (opts : BindgenOptions) (s : String) :
    (clangOptionsOf opts).builtin_names = builtin_names
    ∧ (s ∈ builtin_names ↔
        s = "__va_list_tag" ∨ s = "__va_list" ∨ s = "__builtin_va_list") := by
  refine ⟨rfl, ?_⟩
  simp only [builtin_names, List.foldl_cons, List.foldl_nil, Finset.mem_insert,
    Finset.not_mem_empty, or_false]
  tauto

/-- C4: the override handed to the parser is `str_to_ikind` of the
`override_enum_ty` option; each of the ten recognized kind strings maps to
the corresponding `IKind` and the empty default maps to no override, while
every string outside the ten maps to no override. -/
theorem override_enum_ty_ikind (opts : BindgenOptions) (s : String)
    (h : s ∉ (["uchar", "schar", "ushort", "sshort", "uint", "sint",
               "ulong", "slong", "ulonglong", "slonglong"] : List String)) :
    ((clangOptionsOf opts).override_enum_ty = str_to_ikind opts.override_enum_ty
      ∧ str_to_ikind "uchar" = some IKind.IUChar
      ∧ str_to_ikind "schar" = some IKind.ISChar
      ∧ str_to_ikind "ushort" = some IKind.IUShort
      ∧ str_to_ikind "sshort" = some IKind.IShort
      ∧ str_to_ikind "uint" = some IKind.IUInt
      ∧ str_to_ikind "sint" = some IKind.IInt
      ∧ str_to_ikind "ulong" = some IKind.IULong
      ∧ str_to_ikind "slong" = some IKind.ILong
      ∧ str_to_ikind "ulonglong" = some IKind.IULongLong
      ∧ str_to_ikind "slonglong" = some IKind.ILongLong
      ∧ str_to_ikind "" = none)
    ∧ str_to_ikind s = none := by
  refine ⟨⟨rfl, by decide, by decide, by decide, by decide, by decide, by decide,
    by decide, by decide, by decide, by decide, by decide⟩, ?_⟩
  simp only [List.mem_cons, List.not_mem_nil, or_false] at h
  push_neg at h
  obtain ⟨h1, h2, h3, h4, h5, h6, h7, h8, h9, h10⟩ := h
  simp [str_to_ikind, h1, h2, h3, h4, h5, h6, h7, h8, h9, h10]

/-- Witness for C4 at the concrete unrecognized string `"int"`. -/
theorem override_enum_ty_ikind_witness : str_to_ikind "int" = none :=
  (override_enum_ty_ikind BindgenOptions.default "int" (by decide)).2

/-- C5: `to_string` prints the module with a printer of line-wrap width
80, for every bindings value and every rendering environment. -/
theorem to_string_fixed_width (env : Env) (b : Bindings) :
    Bindings.to_string env b = env.print_mod_at b.module 80 :=
  rfl

/-- C3: `generate` with no logger behaves exactly as with `DummyLogger`,
whose `error` and `warn` methods do nothing; and the returned `Result`
does not depend on which logger is supplied. -/
theorem generate_logger_default (env : Env) (opts : BindgenOptions)
    (sp : Option Span) (l l₂ : Logger) :
    Bindings.generate env opts none sp
      = Bindings.generate env opts (some DummyLogger) sp
    ∧ (∀ m, DummyLogger.error m = [] ∧ DummyLogger.warn m = [])
    ∧ (Bindings.generate env opts (some l) sp).1
      = (Bindings.generate env opts (some l₂) sp).1
    ∧ (Bindings.generate env opts (some l) sp).1
      = (Bindings.generate env opts none sp).1 := by
  refine ⟨rfl, fun m => ⟨rfl, rfl⟩, ?_, ?_⟩ <;>
  · simp only [Bindings.generate, parse_headers]
    cases h : (env.parse (clangOptionsOf opts)).1 <;> simp [h]

/-- Helper: a parse failure propagates to `generate`. -/
lemma generate_of_parse_err (env : Env) (opts : BindgenOptions)
    (logger : Option Logger) (sp : Option Span) (e : Unit)
    (h : (parse_headers env opts (logger.getD DummyLogger)).1 = .error e) :
    (Bindings.generate env opts logger sp).1 = .error e := by
  cases logger <;> cases sp <;>
    simp only [Option.getD] at h <;>
      simp only [Bindings.generate, parse_headers] at h ⊢ <;> rw [h]

/-- Helper: a parse success makes `generate` return the module built from
the parsed globals. -/
lemma generate_of_parse_ok (env : Env) (opts : BindgenOptions)
    (logger : Option Logger) (sp : Option Span) (gs : List Global)
    (h : (parse_headers env opts (logger.getD DummyLogger)).1 = .ok gs) :
    (Bindings.generate env opts logger sp).1 =
      .ok ⟨⟨sp.getD DUMMY_SP, env.gen_mod opts.links gs (sp.getD DUMMY_SP)⟩⟩ := by
  cases logger <;> cases sp <;>
    simp only [Option.getD] at h <;>
      simp only [Bindings.generate, parse_headers] at h ⊢ <;> simp [h]

/-- C1: if header parsing fails, `generate` returns that failure (no
`Bindings` value exists in the error case); if header parsing succeeds,
`generate` returns `Ok` with the `Bindings` whose module is built from the
parsed globals. -/
theorem generate_parse_contract (env : Env) (opts : BindgenOptions)
    (logger : Option Logger) (sp : Option Span) :
    (∀ e, (parse_headers env opts (logger.getD DummyLogger)).1 = .error e →
        (Bindings.generate env opts logger sp).1 = .error e)
    ∧ (∀ gs, (parse_headers env opts (logger.getD DummyLogger)).1 = .ok gs →
        (Bindings.generate env opts logger sp).1 =
          .ok ⟨⟨sp.getD DUMMY_SP,
               env.gen_mod opts.links gs (sp.getD DUMMY_SP)⟩⟩) :=
  ⟨generate_of_parse_err env opts logger sp,
   generate_of_parse_ok env opts logger sp⟩

/-- Witness for C1: a failing parse yields the failure, a succeeding parse
yields `Ok` with the generated module, at concrete environments. -/
theorem generate_parse_contract_witness :
    (Bindings.generate envFail BindgenOptions.default none none).1 = .error ()
    ∧ (Bindings.generate (envModel []) BindgenOptions.default none none).1
        = .ok ⟨⟨DUMMY_SP, []⟩⟩ :=
  ⟨(generate_parse_contract envFail BindgenOptions.default none none).1 () rfl,
   (generate_parse_contract (envModel []) BindgenOptions.default none none).2 [] rfl⟩

/-- C2: two runs of `generate` on the same environment, options, logger
and span that both return `Ok` produce bindings with identical serialized
text. -/
theorem generate_deterministic (env : Env) (opts : BindgenOptions)
    (logger : Option Logger) (sp : Option Span) (b₁ b₂ : Bindings)
    (h₁ : (Bindings.generate env opts logger sp).1 = .ok b₁)
    (h₂ : (Bindings.generate env opts logger sp).1 = .ok b₂) :
    Bindings.to_string env b₁ = Bindings.to_string env b₂ := by
  rw [h₁] at h₂
  cases h₂
  rfl

/-- Witness for C2 at a concrete environment and the bindings it
generates. -/
theorem generate_deterministic_witness :
    Bindings.to_string (envModel []) ⟨⟨DUMMY_SP, []⟩⟩
      = Bindings.to_string (envModel []) ⟨⟨DUMMY_SP, []⟩⟩ :=
  generate_deterministic (envModel []) BindgenOptions.default none none
    ⟨⟨DUMMY_SP, []⟩⟩ ⟨⟨DUMMY_SP, []⟩⟩ rfl rfl

/-- C6: `into_ast` returns exactly the item sequence the emitter produced
during `generate`, unchanged and in the same order. -/
theorem into_ast_exact (env : Env) (opts : BindgenOptions)
    (logger : Option Logger) (sp : Option Span) (b : Bindings)
    (gs : List Global)
    (hp : (parse_headers env opts (logger.getD DummyLogger)).1 = .ok gs)
    (hg : (Bindings.generate env opts logger sp).1 = .ok b) :
    b.into_ast = env.gen_mod opts.links gs (sp.getD DUMMY_SP) := by
  rw [generate_of_parse_ok env opts logger sp gs hp] at hg
  cases hg
  rfl

/-- Witness for C6 at a concrete environment. -/
theorem into_ast_exact_witness :
    Bindings.into_ast ⟨⟨DUMMY_SP, []⟩⟩
      = (envModel []).gen_mod BindgenOptions.default.links [] DUMMY_SP :=
  into_ast_exact (envModel []) BindgenOptions.default none none
    ⟨⟨DUMMY_SP, []⟩⟩ [] rfl rfl

/-- An environment whose printer output records the line-wrap width it was
given, with the pretty printer's historical default width 78; it separates
the default-width printer used by `write` from the 80-column printer used
by `to_string`. -/
def envWidth : Env where
  parse := fun _ => (.ok [], [])
  gen_mod := fun _ _ _ => []
  print_mod_at := fun _ w => toString w
  default_columns := 78

/-- C9 counterexample: `write` output is not the banner followed by the
`to_string` text when the printer's default width renders differently from
the 80-column printer that `to_string` installs. -/
theorem write_not_banner_plus_to_string :
    ¬ (Bindings.write envWidth ⟨⟨DUMMY_SP, []⟩⟩ =
       "/* automatically generated by rust-bindgen */\n\n"
         ++ Bindings.to_string envWidth ⟨⟨DUMMY_SP, []⟩⟩) := by
  decide

/-- C9 (amended): `write` emits the fixed banner before any declaration
text, followed by the module printed at the printer's default width; its
bytes differ from `to_string` by exactly the banner whenever the
default-width rendering agrees with the 80-column rendering that
`to_string` uses. -/
theorem write_banner_first (env : Env) (b : Bindings) :
    Bindings.write env b =
      "/* automatically generated by rust-bindgen */\n\n"
        ++ env.print_mod_at b.module env.default_columns
    ∧ (env.print_mod_at b.module env.default_columns
         = env.print_mod_at b.module 80 →
       Bindings.write env b =
         "/* automatically generated by rust-bindgen */\n\n"
           ++ Bindings.to_string env b) := by
  refine ⟨rfl, fun h => ?_⟩
  simp [Bindings.write, Bindings.to_string, h]

/-- Witness for C9's amended theorem at an environment whose renderings
agree. -/
theorem write_banner_first_witness :
    Bindings.write (envModel []) ⟨⟨DUMMY_SP, []⟩⟩ =
      "/* automatically generated by rust-bindgen */\n\n"
        ++ Bindings.to_string (envModel []) ⟨⟨DUMMY_SP, []⟩⟩ :=
  (write_banner_first (envModel []) ⟨⟨DUMMY_SP, []⟩⟩).2 rfl

/-- Helper: with the lenient policy, registration never fails. -/
lemma registerDecls_lenient_total (opts : ClangParserOptions)
    (h : opts.fail_on_unknown_type = false) (ds : List RawDecl) :
    ∃ p, registerDecls opts ds = .ok p := by
  induction ds with
  | nil => exact ⟨([], []), rfl⟩
  | cons d ds ih =>
    obtain ⟨⟨gs, ws⟩, hp⟩ := ih
    obtain ⟨n, t⟩ := d
    cases t with
    | void =>
      exact ⟨(Global.GVar n CType.Void :: gs, ws),
        by simp [registerDecls, resolveType, hp]⟩
    | int k =>
      exact ⟨(Global.GVar n (CType.Int k) :: gs, ws),
        by simp [registerDecls, resolveType, hp]⟩
    | unclassifiable sp =>
      exact ⟨(Global.GVar n (CType.Unknown sp) :: gs,
          LogMsg.warn ("unknown type: " ++ sp) :: ws),
        by simp [registerDecls, resolveType, h, hp]⟩

/-- Helper: with the lenient policy, a stream holding an unclassifiable
raw type registers successfully, the placeholder `Unknown(spelling)` is
among the globals, and the warning is among the diagnostics. -/
lemma registerDecls_lenient_unknown (opts : ClangParserOptions)
    (h : opts.fail_on_unknown_type = false) (pre post : List RawDecl)
    (nm sp : String) :
    ∃ gs₁ gs₂ ws₁ ws₂,
      registerDecls opts (pre ++ ⟨nm, RawType.unclassifiable sp⟩ :: post) =
        .ok (gs₁ ++ Global.GVar nm (CType.Unknown sp) :: gs₂,
             ws₁ ++ LogMsg.warn ("unknown type: " ++ sp) :: ws₂) := by
  induction pre with
  | nil =>
    obtain ⟨⟨gs, ws⟩, hp⟩ := registerDecls_lenient_total opts h post
    exact ⟨[], gs, [], ws, by simp [registerDecls, resolveType, h, hp]⟩
  | cons d pre ih =>
    obtain ⟨gs₁, gs₂, ws₁, ws₂, hp⟩ := ih
    obtain ⟨n, t⟩ := d
    cases t with
    | void =>
      exact ⟨Global.GVar n CType.Void :: gs₁, gs₂, ws₁, ws₂,
        by simp [registerDecls, resolveType, hp]⟩
    | int k =>
      exact ⟨Global.GVar n (CType.Int k) :: gs₁, gs₂, ws₁, ws₂,
        by simp [registerDecls, resolveType, hp]⟩
    | unclassifiable sp₂ =>
      exact ⟨Global.GVar n (CType.Unknown sp₂) :: gs₁, gs₂,
        LogMsg.warn ("unknown type: " ++ sp₂) :: ws₁, ws₂,
        by simp [registerDecls, resolveType, h, hp]⟩

/-- Helper: with the strict policy, a stream holding an unclassifiable raw
type makes registration fail. -/
lemma registerDecls_strict_fails (opts : ClangParserOptions)
    (h : opts.fail_on_unknown_type = true) (pre post : List RawDecl)
    (nm sp : String) :
    registerDecls opts (pre ++ ⟨nm, RawType.unclassifiable sp⟩ :: post) =
      .error () := by
  induction pre with
  | nil => simp [registerDecls, resolveType, h]
  | cons d pre ih =>
    obtain ⟨n, t⟩ := d
    cases t <;> simp [registerDecls, resolveType, h, ih]

/-- C7: over the spec-modelled registry, an input stream holding a type the
registry cannot classify makes `generate` fail when
`fail_on_unknown_type = true`; with `fail_on_unknown_type = false`,
`generate` succeeds, the parsed globals hold the opaque placeholder
`Unknown(spelling)`, and the warning is surfaced through the logger. -/
theorem unknown_type_policy (pre post : List RawDecl) (nm sp : String)
    (opts : BindgenOptions) (logger : Option Logger) (s : Option Span) :
    (opts.fail_on_unknown_type = true →
      (Bindings.generate (envModel (pre ++ ⟨nm, RawType.unclassifiable sp⟩ :: post))
          opts logger s).1 = .error ())
    ∧ (opts.fail_on_unknown_type = false →
      ∃ b gs₁ gs₂,
        (Bindings.generate (envModel (pre ++ ⟨nm, RawType.unclassifiable sp⟩ :: post))
            opts logger s).1 = .ok b
        ∧ (parse_headers (envModel (pre ++ ⟨nm, RawType.unclassifiable sp⟩ :: post))
             opts (logger.getD DummyLogger)).1
            = .ok (gs₁ ++ Global.GVar nm (CType.Unknown sp) :: gs₂)
        ∧ ("warn: " ++ ("unknown type: " ++ sp)) ∈
            (Bindings.generate (envModel (pre ++ ⟨nm, RawType.unclassifiable sp⟩ :: post))
                opts (some recordLogger) s).2) := by
  constructor
  · intro h
    apply generate_of_parse_err
    have hs : (clangOptionsOf opts).fail_on_unknown_type = true := h
    simp [parse_headers, envModel, parseModel,
      registerDecls_strict_fails (clangOptionsOf opts) hs pre post nm sp]
  · intro h
    have hs : (clangOptionsOf opts).fail_on_unknown_type = false := h
    obtain ⟨gs₁, gs₂, ws₁, ws₂, hp⟩ :=
      registerDecls_lenient_unknown (clangOptionsOf opts) hs pre post nm sp
    have hph : (parse_headers (envModel (pre ++ ⟨nm, RawType.unclassifiable sp⟩ :: post))
        opts (logger.getD DummyLogger)).1
        = .ok (gs₁ ++ Global.GVar nm (CType.Unknown sp) :: gs₂) := by
      simp [parse_headers, envModel, parseModel, hp]
    refine ⟨_, gs₁, gs₂, generate_of_parse_ok _ opts logger s _ hph, hph, ?_⟩
    have hmsg : LogMsg.warn ("unknown type: " ++ sp) ∈
        ((envModel (pre ++ ⟨nm, RawType.unclassifiable sp⟩ :: post)).parse
          (clangOptionsOf opts)).2 := by
      simp [envModel, parseModel, hp]
    have hgen : (Bindings.generate (envModel (pre ++ ⟨nm, RawType.unclassifiable sp⟩ :: post))
        opts (some recordLogger) s).2 =
        ((((envModel (pre ++ ⟨nm, RawType.unclassifiable sp⟩ :: post)).parse
            (clangOptionsOf opts)).2).map (runLogger recordLogger)).flatten := by
      simp only [Bindings.generate, parse_headers]
      cases ((envModel (pre ++ ⟨nm, RawType.unclassifiable sp⟩ :: post)).parse
        (clangOptionsOf opts)).1 <;> rfl
    rw [hgen]
    exact List.mem_flatten_of_mem
      (List.mem_map_of_mem (runLogger recordLogger) hmsg) (by simp [runLogger, recordLogger])

/-- Witness for C7: a one-declaration stream with an unclassifiable type,
in strict and in lenient mode. -/
theorem unknown_type_policy_witness :
    (Bindings.generate (envModel [⟨"x", RawType.unclassifiable "FooBar"⟩])
        { BindgenOptions.default with fail_on_unknown_type := true }
        none none).1 = .error ()
    ∧ ∃ b gs₁ gs₂,
        (Bindings.generate (envModel [⟨"x", RawType.unclassifiable "FooBar"⟩])
            BindgenOptions.default none none).1 = .ok b
        ∧ (parse_headers (envModel [⟨"x", RawType.unclassifiable "FooBar"⟩])
             BindgenOptions.default ((none : Option Logger).getD DummyLogger)).1
            = .ok (gs₁ ++ Global.GVar "x" (CType.Unknown "FooBar") :: gs₂)
        ∧ ("warn: " ++ ("unknown type: " ++ "FooBar")) ∈
            (Bindings.generate (envModel [⟨"x", RawType.unclassifiable "FooBar"⟩])
                BindgenOptions.default (some recordLogger) none).2 :=
  ⟨(unknown_type_policy [] [] "x" "FooBar"
      { BindgenOptions.default with fail_on_unknown_type := true } none none).1 rfl,
   (unknown_type_policy [] [] "x" "FooBar" BindgenOptions.default none none).2 rfl⟩

end Bindgen
